import Mathlib

/-!
Verification of the File-downloader service (Python/FastAPI) against its
natural-language specification.

The embedding translates, from the source:
  * `extract_accession_numbers` (src/file_processing/file_processing.py:69-86,
    identical copy in src/services/routers/file.py:76-93),
  * `update_file_status` (src/file_processing/file_processing.py:89-108,
    src/services/routers/file.py:96-128),
  * `download_and_process_file` (src/file_processing/file_processing.py:20-66,
    src/services/routers/file.py:30-73),
  * `start_download` and `check_status` (src/services/routers/file.py:131-207),
  * the `File` ORM model (src/services/database/models/file.py).

The database store is modelled as a list of records; SQLAlchemy's
`select(...).filter_by(download_task_id=task_id)` followed by
`.scalars().first()` is modelled as `List.find?` on the task id, and a
mutation of the found record as an update of the first matching record.
The HTTP client (aiohttp) and the gzip decompressor are external libraries,
not part of the repository: they enter the model as abstract data
(`FetchOutcome`, `HeadOutcome`) and an abstract decompression function,
whose outcomes are classified exactly by the exception classes the source
catches. Python's `list.__getitem__` fault (IndexError) is modelled by
`Option`: a function that can raise an uncaught exception returns `none`
in that case.
-/

namespace FileDownloader

/-- Characters on which Python's no-argument `str.split()` splits: the
characters for which `str.isspace()` holds, i.e. ASCII whitespace
`\t\n\v\f\r` and space, the information separators `\x1c`-`\x1f`,
next line `\x85`, no-break space `\xa0`, ogham space mark `\u1680`,
the space separators `\u2000`-`\u200a`, line separator `\u2028`,
paragraph separator `\u2029`, narrow no-break space `\u202f`, medium
mathematical space `\u205f` and ideographic space `\u3000`. -/
def isPySpace (c : Char) : Bool :=
  c = ' ' ∨ c = '\t' ∨ c = '\n' ∨ c = '\x0b' ∨ c = '\x0c' ∨ c = '\r' ∨
    c = '\x1c' ∨ c = '\x1d' ∨ c = '\x1e' ∨ c = '\x1f' ∨ c = '\x85' ∨ c = '\xa0' ∨
    c = '\u1680' ∨ ('\u2000' ≤ c ∧ c ≤ '\u200a') ∨ c = '\u2028' ∨ c = '\u2029' ∨
    c = '\u202f' ∨ c = '\u205f' ∨ c = '\u3000'

/-- Splitter underlying Python `str.split()`: walk the characters keeping
the current token (in reverse); a whitespace character ends the current
token, empty tokens are dropped. -/
def pysplitGo (acc : List Char) : List Char → List (List Char)
  | [] => if acc.isEmpty then [] else [acc.reverse]
  | c :: cs =>
    if isPySpace c then
      if acc.isEmpty then pysplitGo [] cs else acc.reverse :: pysplitGo [] cs
    else
      pysplitGo (c :: acc) cs

/-- Python `line.split()`: split on runs of whitespace, no empty tokens. -/
def pysplit (s : String) : List String :=
  (pysplitGo [] s.data).map String.mk

/-- The line boundaries of Python `str.splitlines()`: line feed `\n`,
carriage return `\r`, vertical tab `\x0b`, form feed `\x0c`, the file,
group and record separators `\x1c`-`\x1e`, next line `\x85`, and the
line and paragraph separators `\u2028`/`\u2029` (the `\r\n` pair, one
single boundary, is handled by the splitter itself). -/
def isPyLineBreak (c : Char) : Bool :=
  c = '\n' ∨ c = '\r' ∨ c = '\x0b' ∨ c = '\x0c' ∨
    c = '\x1c' ∨ c = '\x1d' ∨ c = '\x1e' ∨ c = '\x85' ∨ c = '\u2028' ∨ c = '\u2029'

/-- Splitter underlying Python `str.splitlines()`: a line-break character
ends the current line, with the pair `\r\n` counting as one single break;
the text after the final break forms a line only when non-empty (so text
ending in a line break has no trailing empty line). -/
def splitlinesGo (acc : List Char) : List Char → List (List Char)
  | [] => if acc.isEmpty then [] else [acc.reverse]
  | '\r' :: '\n' :: cs => acc.reverse :: splitlinesGo [] cs
  | c :: cs =>
    if isPyLineBreak c then acc.reverse :: splitlinesGo [] cs
    else splitlinesGo (c :: acc) cs

/-- Python `str.splitlines()`. -/
def splitlines (s : String) : List String :=
  (splitlinesGo [] s.data).map String.mk

/-- Boolean prefix test on character lists. -/
def prefixChars : List Char → List Char → Bool
  | [], _ => true
  | _ :: _, [] => false
  | p :: ps, c :: cs => p = c && prefixChars ps cs

/-- Python `line.startswith(pre)`. -/
def startswith (line pre : String) : Bool :=
  prefixChars pre.data line.data

/-- The loop body of `extract_accession_numbers`: walk the lines keeping an
accumulator (in reverse).  `line.split()[1]` raises IndexError when the
split has fewer than two tokens; the uncaught fault is modelled by `none`,
which aborts the remaining iterations exactly as the exception would. -/
def extractGo : List String → List String → Option (List String)
  | [], acc => some acc.reverse
  | line :: rest, acc =>
    if startswith line "ACCESSION" then
      match (pysplit line).get? 1 with
      | some tok => extractGo rest (tok :: acc)
      | none => none
    else
      extractGo rest acc

/-- `extract_accession_numbers(file_data)`
(src/file_processing/file_processing.py:69-86): for each line of the input
that starts with `"ACCESSION"`, append `line.split()[1]`.  Returns `none`
when a matching line has no second token (Python raises IndexError). -/
def extract_accession_numbers (file_data : String) : Option (List String) :=
  extractGo (splitlines file_data) []

/-- The `File` ORM record (src/services/database/models/file.py:11-20).
The primary key is `uuid`; `download_task_id` is a plain integer column
with no uniqueness constraint.  The `size` and `created_at` columns are
never read or written by the functions under verification and are
omitted. -/
structure File where
  uuid : Nat
  download_task_id : Nat
  url : String
  status : String
  result_count : Nat
  accession_list : List String
deriving DecidableEq

/-- `select(File).filter_by(download_task_id=task_id)` + `.scalars().first()`. -/
def findTask (store : List File) (task_id : Nat) : Option File :=
  store.find? (fun r => r.download_task_id == task_id)

/-- Mutate the first record matching the task id (SQLAlchemy mutates the
row object returned by `.first()` and commits); if no record matches, the
store is unchanged (the source returns early on `if not file_record`). -/
def updateFirst (store : List File) (task_id : Nat) (f : File → File) : List File :=
  match store with
  | [] => []
  | r :: rs =>
    if r.download_task_id == task_id then f r :: rs
    else r :: updateFirst rs task_id f

/-- The field mutation performed by `update_file_status`
(src/file_processing/file_processing.py:100-103): always set `status`;
when an accession list is passed, also set `accession_list` and
`result_count = len(accession_list)` in the same transaction. -/
def applyStatus (status : String) (accession_list : Option (List String)) (r : File) : File :=
  match accession_list with
  | none => { r with status := status }
  | some l => { r with status := status, accession_list := l, result_count := l.length }

/-- `update_file_status(session, task_id, status, accession_list=None)`
(src/file_processing/file_processing.py:89-108): look up the first record
with the given `download_task_id`, return unchanged if absent, otherwise
write the new status (and, if provided, the accession list and its
length).  The source performs no check of the current status and signals
no error: the function always returns `None`. -/
def update_file_status (store : List File) (task_id : Nat) (status : String)
    (accession_list : Option (List String) := none) : List File :=
  updateFirst store task_id (applyStatus status accession_list)

/-- Outcome of `client_session.get(url)` + `response.read()`: either a
response with an HTTP status code and a body, or an `aiohttp.ClientError`
(connection failure, timeout, DNS failure). -/
inductive FetchOutcome where
  | success (status : Nat) (body : List Nat)
  | clientError
deriving DecidableEq

/-- Outcome of `gzip.open(...).read()` on a byte buffer, classified by the
exception classes the source distinguishes: the decoded text, an
exception of the classes the inner handler catches (`OSError` /
`gzip.BadGzipFile` in file_processing.py:51, only `gzip.BadGzipFile` in
the router copy at file.py:61), or an exception of any other class, which
the inner handler misses so that it reaches the outer `except Exception`
(file_processing.py:64). -/
inductive DecompressResult where
  | ok (text : String)
  | formatError
  | otherError
deriving DecidableEq

/-- `download_and_process_file(url, task_id, session)`
(src/file_processing/file_processing.py:20-66), with the network exchange
abstracted into its outcome and the gzip library into the function
`gunzip`.  Control flow follows the source exactly:
`response.status != 200` → status "Failed to download"; a caught
decompression error → "Failed to decompress"; an uncaught exception —
another decompression fault or the IndexError from
`extract_accession_numbers` — reaches `except Exception` → "Failed due to
an unexpected error"; `aiohttp.ClientError` → "Failed to download";
otherwise "Completed" together with the extracted list. -/
def download_and_process_file (gunzip : List Nat → DecompressResult)
    (outcome : FetchOutcome) (task_id : Nat) (store : List File) : List File :=
  match outcome with
  | .clientError => update_file_status store task_id "Failed to download"
  | .success status body =>
    if status ≠ 200 then
      update_file_status store task_id "Failed to download"
    else
      match gunzip body with
      | .formatError => update_file_status store task_id "Failed to decompress"
      | .otherError => update_file_status store task_id "Failed due to an unexpected error"
      | .ok text =>
        match extract_accession_numbers text with
        | none => update_file_status store task_id "Failed due to an unexpected error"
        | some l => update_file_status store task_id "Completed" (some l)

/-- Outcome of the `client_session.head(request.url)` probe in
`start_download`. -/
inductive HeadOutcome where
  | success (status : Nat)
  | clientError
deriving DecidableEq

/-- `start_download` (src/services/routers/file.py:131-169): HEAD-probe the
URL (non-200 or `ClientError` → HTTP 400), then insert a new `File` row
with the randomly drawn `task_id`, the url, status "Downloading" and the
column defaults `result_count = 0`, `accession_list = []`, and answer
`{id, status}`.  The random draw and the fresh `uuid` primary key are
parameters.  The insert is unconditional: no existing row is consulted. -/
def start_download (head : HeadOutcome) (task_id : Nat) (new_uuid : Nat)
    (url : String) (store : List File) : Except Nat (List File × Nat × String) :=
  match head with
  | .clientError => .error 400
  | .success st =>
    if st ≠ 200 then .error 400
    else .ok (store ++ [{ uuid := new_uuid, download_task_id := task_id, url := url,
                          status := "Downloading", result_count := 0,
                          accession_list := [] }], task_id, "Downloading")

/-- The `FileStatusResponse` payload (src/services/schemas/file.py). -/
structure FileStatusResponse where
  status : String
  result_count : Nat
  accession_list : List String
deriving DecidableEq

/-- `check_status(task_id, session)` (src/services/routers/file.py:172-207):
look up the record (absent → 404, modelled by `none`); build
`display_accessions` as a slice copy `accession_list[:20]` when the stored
list is truthy (non-empty) and a fresh `[]` otherwise, append the literal
`"..."` to that copy, and answer status, result count and the display
list.  The store is returned unchanged: the endpoint performs no write. -/
def check_status (store : List File) (task_id : Nat) :
    Option FileStatusResponse × List File :=
  match store.find? (fun r => r.download_task_id == task_id) with
  | none => (none, store)
  | some r =>
    ((some { status := r.status, result_count := r.result_count,
             accession_list :=
               (if r.accession_list.isEmpty then [] else r.accession_list.take 20)
                 ++ ["..."] }), store)

/-! ### Helper lemmas -/

/-- The field mutation of `update_file_status` never touches the task id. -/
lemma applyStatus_task_id (status : String) (optL : Option (List String)) (r : File) :
    (applyStatus status optL r).download_task_id = r.download_task_id := by
  cases optL <;> rfl

/-- Updating the first record matching a task id commutes with looking that
task id up: the lookup afterwards returns the mutated record. -/
lemma findTask_updateFirst (store : List File) (task_id : Nat) (f : File → File)
    (hf : ∀ x, (f x).download_task_id = x.download_task_id) :
    findTask (updateFirst store task_id f) task_id = (findTask store task_id).map f := by
  induction store with
  | nil => rfl
  | cons r rs ih =>
    by_cases hr : r.download_task_id = task_id
    · simp [findTask, updateFirst, List.find?_cons, hr, hf]
    · simp only [updateFirst, beq_iff_eq, hr, if_false]
      simp [findTask, List.find?_cons, hr, hf] at ih ⊢
      exact ih

/-- Every record of the updated store is either an original record or the
mutation of an original record. -/
lemma mem_updateFirst (store : List File) (task_id : Nat) (f : File → File)
    (x : File) (hx : x ∈ updateFirst store task_id f) :
    x ∈ store ∨ ∃ r ∈ store, x = f r := by
  induction store with
  | nil => simp [updateFirst] at hx
  | cons r rs ih =>
    by_cases hr : r.download_task_id == task_id
    · simp only [updateFirst, hr, if_true] at hx
      rcases List.mem_cons.mp hx with h | h
      · exact Or.inr ⟨r, List.mem_cons_self r rs, h⟩
      · exact Or.inl (List.mem_cons_of_mem r h)
    · simp only [updateFirst, hr, if_false] at hx
      rcases List.mem_cons.mp hx with h | h
      · exact Or.inl (h ▸ List.mem_cons_self r rs)
      · rcases ih h with h1 | ⟨y, hy, hxy⟩
        · exact Or.inl (List.mem_cons_of_mem r h1)
        · exact Or.inr ⟨y, List.mem_cons_of_mem r hy, hxy⟩

/-- The extraction loop on a list of lines all of whose `ACCESSION` lines
carry a second token: no IndexError occurs, and the result appends to the
accumulator the second token of each matching line, in order. -/
lemma extractGo_spec (lines : List String) (acc : List String)
    (h : ∀ l ∈ lines, startswith l "ACCESSION" = true → 2 ≤ (pysplit l).length) :
    extractGo lines acc =
      some (acc.reverse ++ (lines.filter (fun l => startswith l "ACCESSION")).map
        (fun l => ((pysplit l).get? 1).getD "")) := by
  induction lines generalizing acc with
  | nil => simp [extractGo]
  | cons line rest ih =>
    by_cases hs : startswith line "ACCESSION" = true
    · have h2 : 2 ≤ (pysplit line).length := h line (List.mem_cons_self _ _) hs
      cases hg : (pysplit line).get? 1 with
      | none =>
        exfalso
        have := List.get?_eq_none.mp hg
        omega
      | some tok =>
        have ih2 := ih (tok :: acc) (fun l hl => h l (List.mem_cons_of_mem _ hl))
        simp only [extractGo, hs, if_true, hg, ih2, List.filter_cons, List.map_cons,
          List.reverse_cons, Option.getD_some]
        simp
    · have ih2 := ih acc (fun l hl => h l (List.mem_cons_of_mem _ hl))
      simp only [extractGo, hs, if_false, ih2, List.filter_cons]
      simp [hs]

/-! ### Claim theorems -/

/-- C1: for an input text whose `ACCESSION`-prefixed lines each carry a
second whitespace-delimited token, `extract_accession_numbers` returns
exactly the second token of each such line, in input order — one element
per matching line. -/
theorem C1_extract_returns_second_tokens (t : String)
    (h : ∀ l ∈ splitlines t, startswith l "ACCESSION" = true → 2 ≤ (pysplit l).length) :
    extract_accession_numbers t =
      some (((splitlines t).filter (fun l => startswith l "ACCESSION")).map
        (fun l => ((pysplit l).get? 1).getD "")) ∧
    (((splitlines t).filter (fun l => startswith l "ACCESSION")).map
        (fun l => ((pysplit l).get? 1).getD "")).length =
      ((splitlines t).filter (fun l => startswith l "ACCESSION")).length := by
  refine ⟨?_, by simp⟩
  unfold extract_accession_numbers
  simpa using extractGo_spec (splitlines t) [] h

/-- Witness for C1 at the concrete text of Scenario A. -/
theorem C1_extract_witness :
    (∀ l ∈ splitlines "ACCESSION A1\nIGNORE\nACCESSION A2\n",
      startswith l "ACCESSION" = true → 2 ≤ (pysplit l).length) ∧
    extract_accession_numbers "ACCESSION A1\nIGNORE\nACCESSION A2\n" =
      some (((splitlines "ACCESSION A1\nIGNORE\nACCESSION A2\n").filter
          (fun l => startswith l "ACCESSION")).map
        (fun l => ((pysplit l).get? 1).getD "")) :=
  ⟨by decide, (C1_extract_returns_second_tokens _ (by decide)).1⟩

/-- C3 (code bug): a line reading just `ACCESSION`, with no second token,
makes `line.split()[1]` raise an uncaught IndexError (modelled by `none`),
aborting extraction of the remaining lines — the same text without the
malformed line extracts fine.  The claim (and the spec) require extraction
never to fail; the code does fail. -/
theorem C3_malformed_line_aborts :
    extract_accession_numbers "ACCESSION A1\nACCESSION\nACCESSION A2\n" = none ∧
    extract_accession_numbers "ACCESSION A1\nACCESSION A2\n" = some ["A1", "A2"] := by
  decide

/-- A record already in a terminal state, for exercising
`update_file_status` and `check_status`. -/
def completedRecord : File :=
  { uuid := 0, download_task_id := 7, url := "u", status := "Completed",
    result_count := 2, accession_list := ["A1", "A2"] }

/-- A one-record store holding `completedRecord`. -/
def completedStore : List File := [completedRecord]

/-- C4 counterexample: called on a task whose status is already terminal
(`Completed`), `update_file_status` does not leave the record unchanged
and signals no conflict — it silently overwrites the status. -/
theorem C4_counterexample :
    update_file_status completedStore 7 "Failed to download" =
      [{ uuid := 0, download_task_id := 7, url := "u", status := "Failed to download",
         result_count := 2, accession_list := ["A1", "A2"] }] ∧
    update_file_status completedStore 7 "Failed to download" ≠ completedStore := by
  exact ⟨by decide, by decide⟩

/-- C4 as amended: `update_file_status` performs no terminal-state check
and has no error outcome: whatever the current status of the stored
record — terminal or not — a further call overwrites the status (and the
results when provided). -/
theorem C4_terminal_not_protected (store : List File) (task_id : Nat) (status : String)
    (optL : Option (List String)) (r : File) (h : findTask store task_id = some r) :
    findTask (update_file_status store task_id status optL) task_id =
      some (applyStatus status optL r) ∧
    (applyStatus status optL r).status = status := by
  constructor
  · rw [update_file_status, findTask_updateFirst _ _ _ (applyStatus_task_id status optL), h]
    rfl
  · cases optL <;> rfl

/-- Witness for C4 on the concrete already-terminal store. -/
theorem C4_overwrite_witness :
    findTask completedStore 7 = some completedRecord ∧
    (findTask (update_file_status completedStore 7 "Failed to download" none) 7 =
      some (applyStatus "Failed to download" none completedRecord) ∧
    (applyStatus "Failed to download" none completedRecord).status = "Failed to download") :=
  ⟨by decide, C4_terminal_not_protected completedStore 7 "Failed to download" none
    completedRecord (by decide)⟩

/-- C10: querying the status endpoint writes nothing: the store it returns
is the store it was given, whatever the task id — the `"..."` marker is
appended only to the response's display copy. -/
theorem C10_check_status_no_write (store : List File) (task_id : Nat) :
    (check_status store task_id).2 = store := by
  unfold check_status
  cases store.find? (fun r => r.download_task_id == task_id) <;> rfl

/-- After any `update_file_status` on a present task, the stored status of
that task is the status that was written. -/
lemma status_after_update (store : List File) (task_id : Nat) (status : String)
    (optL : Option (List String)) (r : File) (hr : findTask store task_id = some r) :
    (findTask (update_file_status store task_id status optL) task_id).map File.status =
      some status := by
  rw [update_file_status, findTask_updateFirst _ _ _ (applyStatus_task_id status optL), hr]
  cases optL <;> rfl

/-- A record still in the initial state, as `start_download` creates it. -/
def downloadingRecord : File :=
  { uuid := 0, download_task_id := 3, url := "u", status := "Downloading",
    result_count := 0, accession_list := [] }

/-- A one-record store holding `downloadingRecord`. -/
def downloadingStore : List File := [downloadingRecord]

/-- A decompressor outcome for Scenario A: the body decodes to the
scenario text. -/
def gzOkScenario : List Nat → DecompressResult :=
  fun _ => .ok "ACCESSION A1\nIGNORE\nACCESSION A2\n"

/-- C2: when the fetch answers HTTP 200 and the body decompresses to
`"ACCESSION A1\nIGNORE\nACCESSION A2\n"`, the pipeline makes exactly one
store write, setting status `Completed`, `accession_list = ["A1", "A2"]`
and `result_count = 2` on the task's record. -/
theorem C2_scenario_a_completed (gunzip : List Nat → DecompressResult) (body : List Nat)
    (store : List File) (task_id : Nat) (r : File)
    (hg : gunzip body = .ok "ACCESSION A1\nIGNORE\nACCESSION A2\n")
    (hr : findTask store task_id = some r) :
    download_and_process_file gunzip (.success 200 body) task_id store =
      update_file_status store task_id "Completed" (some ["A1", "A2"]) ∧
    findTask (download_and_process_file gunzip (.success 200 body) task_id store) task_id =
      some { r with
        status := "Completed"
        accession_list := ["A1", "A2"]
        result_count := 2 } := by
  have hx : extract_accession_numbers "ACCESSION A1\nIGNORE\nACCESSION A2\n" =
      some ["A1", "A2"] := by decide
  have hm : download_and_process_file gunzip (.success 200 body) task_id store =
      update_file_status store task_id "Completed" (some ["A1", "A2"]) := by
    simp [download_and_process_file, hg, hx]
  refine ⟨hm, ?_⟩
  rw [hm, update_file_status, findTask_updateFirst _ _ _ (applyStatus_task_id _ _), hr]
  rfl

/-- Witness for C2 on a concrete store and decompressor. -/
theorem C2_scenario_witness :
    gzOkScenario [] = .ok "ACCESSION A1\nIGNORE\nACCESSION A2\n" ∧
    findTask downloadingStore 3 = some downloadingRecord ∧
    findTask (download_and_process_file gzOkScenario (.success 200 []) 3 downloadingStore) 3 =
      some { downloadingRecord with
        status := "Completed"
        accession_list := ["A1", "A2"]
        result_count := 2 } :=
  ⟨rfl, by decide,
    (C2_scenario_a_completed gzOkScenario [] downloadingStore 3 downloadingRecord rfl
      (by decide)).2⟩

/-- The structural violations of a gzip stream that the claim names. -/
inductive GzipViolation where
  | badMagic
  | corruptChecksum
  | truncatedStream
  | corruptDeflate
deriving DecidableEq

/-- Modelled from CPython's gzip and zlib modules (libraries outside this
repository): the exception each structural violation raises, classified
against the classes the source's inner handler catches.  Bad magic bytes
and a failed CRC check raise `gzip.BadGzipFile` (a subclass of `OSError`)
— caught; a stream that ends before the end-of-stream marker raises
`EOFError` and corrupt deflate data raises `zlib.error`, neither of which
is an `OSError` or a `BadGzipFile` — uncaught by the inner handler in
both copies of the source. -/
def raisedBy : GzipViolation → DecompressResult
  | .badMagic => .formatError
  | .corruptChecksum => .formatError
  | .truncatedStream => .otherError
  | .corruptDeflate => .otherError

/-- A decompressor outcome that always reports a caught gzip fault. -/
def gzFormatError : List Nat → DecompressResult := fun _ => .formatError

/-- A decompressor whose input is always a truncated gzip stream. -/
def gzTruncated : List Nat → DecompressResult := fun _ => raisedBy .truncatedStream

/-- C5 counterexample: a truncated gzip stream — one of the invalid
buffers the claim names — raises `EOFError`, which the inner handler does
not catch, so the pipeline persists "Failed due to an unexpected error"
for the task, not the claimed "Failed to decompress". -/
theorem C5_counterexample :
    raisedBy .truncatedStream = .otherError ∧
    download_and_process_file gzTruncated (.success 200 []) 3 downloadingStore =
      [{ downloadingRecord with status := "Failed due to an unexpected error" }] ∧
    ("Failed due to an unexpected error" : String) ≠ "Failed to decompress" := by
  refine ⟨rfl, by decide, by decide⟩

/-- C5 as amended: decompression failures split by exception class.  A
violation raising the caught classes (bad magic bytes, corrupt checksum →
`gzip.BadGzipFile`) is isolated to the single store write setting status
"Failed to decompress"; a violation raising any other class (truncated
stream → `EOFError`, corrupt deflate data → `zlib.error`) falls through
to the outer handler, which persists "Failed due to an unexpected error".
Neither path is an unhandled fault of the pipeline. -/
theorem C5_decompress_routing (gunzip : List Nat → DecompressResult)
    (body : List Nat) (store : List File) (task_id : Nat) (r : File)
    (hr : findTask store task_id = some r) :
    (gunzip body = .formatError →
      findTask (download_and_process_file gunzip (.success 200 body) task_id store) task_id =
        some { r with status := "Failed to decompress" }) ∧
    (gunzip body = .otherError →
      findTask (download_and_process_file gunzip (.success 200 body) task_id store) task_id =
        some { r with status := "Failed due to an unexpected error" }) := by
  constructor
  · intro hg
    have hm : download_and_process_file gunzip (.success 200 body) task_id store =
        update_file_status store task_id "Failed to decompress" := by
      simp [download_and_process_file, hg]
    rw [hm, update_file_status, findTask_updateFirst _ _ _ (applyStatus_task_id _ _), hr]
    rfl
  · intro hg
    have hm : download_and_process_file gunzip (.success 200 body) task_id store =
        update_file_status store task_id "Failed due to an unexpected error" := by
      simp [download_and_process_file, hg]
    rw [hm, update_file_status, findTask_updateFirst _ _ _ (applyStatus_task_id _ _), hr]
    rfl

/-- Witness for C5 on a concrete store, one run per exception class. -/
theorem C5_routing_witness :
    findTask downloadingStore 3 = some downloadingRecord ∧
    findTask (download_and_process_file gzFormatError (.success 200 []) 3 downloadingStore) 3 =
      some { downloadingRecord with status := "Failed to decompress" } ∧
    findTask (download_and_process_file gzTruncated (.success 200 []) 3 downloadingStore) 3 =
      some { downloadingRecord with status := "Failed due to an unexpected error" } :=
  ⟨by decide,
    (C5_decompress_routing gzFormatError [] downloadingStore 3 downloadingRecord
      (by decide)).1 rfl,
    (C5_decompress_routing gzTruncated [] downloadingStore 3 downloadingRecord
      (by decide)).2 rfl⟩

/-- A completed record whose accession list is well below the 20-entry
truncation threshold. -/
def shortListRecord : File :=
  { uuid := 0, download_task_id := 9, url := "u", status := "Completed",
    result_count := 1, accession_list := ["A1"] }

/-- A one-record store holding `shortListRecord`. -/
def shortListStore : List File := [shortListRecord]

/-- C6 counterexample: a stored task with a single accession entry (well
under 20) is answered with the `"..."` marker anyway — the endpoint
appends the marker unconditionally, so the response is not "exactly those
entries with no marker". -/
theorem C6_counterexample :
    shortListRecord.accession_list.length ≤ 20 ∧
    (check_status shortListStore 9).1 =
      some { status := "Completed", result_count := 1, accession_list := ["A1", "..."] } ∧
    (check_status shortListStore 9).1.map FileStatusResponse.accession_list ≠
      some ["A1"] := by
  refine ⟨by decide, by decide, by decide⟩

/-- C6 as amended: for every stored task, the status response contains the
first `min(20, n)` accession entries always followed by one literal
`"..."` marker, whether or not the list was truncated (also for empty
lists). -/
theorem C6_marker_always_appended (store : List File) (task_id : Nat) (r : File)
    (h : findTask store task_id = some r) :
    (check_status store task_id).1 =
      some { status := r.status, result_count := r.result_count,
             accession_list := r.accession_list.take 20 ++ ["..."] } := by
  have h2 : store.find? (fun x => x.download_task_id == task_id) = some r := h
  simp only [check_status, h2]
  by_cases he : r.accession_list.isEmpty
  · rw [List.isEmpty_iff] at he
    simp [he]
  · simp [he]

/-- Witness for C6 on the concrete short-list store. -/
theorem C6_marker_witness :
    findTask shortListStore 9 = some shortListRecord ∧
    (check_status shortListStore 9).1 =
      some { status := shortListRecord.status, result_count := shortListRecord.result_count,
             accession_list := shortListRecord.accession_list.take 20 ++ ["..."] } :=
  ⟨by decide, C6_marker_always_appended shortListStore 9 shortListRecord (by decide)⟩

/-- The fetch outcomes the source routes to "Failed to download": an
`aiohttp.ClientError`, or a response whose HTTP status is not exactly
200. -/
def fetchFailed : FetchOutcome → Prop
  | .success st _ => st ≠ 200
  | .clientError => True

/-- A decompressor outcome decoding every body to one well-formed line. -/
def gzOkA1 : List Nat → DecompressResult := fun _ => .ok "ACCESSION A1\n"

/-- C7 counterexample: HTTP 201 is a success status (2xx), yet the
pipeline persists "Failed to download" for it instead of proceeding to
decompression — the source compares against exactly 200. -/
theorem C7_counterexample :
    (200 ≤ 201 ∧ 201 < 300) ∧
    download_and_process_file gzOkA1 (.success 201 []) 3 downloadingStore =
      [{ uuid := 0, download_task_id := 3, url := "u", status := "Failed to download",
         result_count := 0, accession_list := [] }] := by
  refine ⟨by decide, by decide⟩

/-- C7 as amended: for a stored task, the persisted status is
"Failed to download" exactly when the fetch raised `ClientError` or
answered an HTTP status different from 200; exactly status 200 proceeds
to decompression. -/
theorem C7_failed_download_iff (gunzip : List Nat → DecompressResult)
    (outcome : FetchOutcome) (store : List File) (task_id : Nat) (r : File)
    (hr : findTask store task_id = some r) :
    ((findTask (download_and_process_file gunzip outcome task_id store) task_id).map
      File.status = some "Failed to download") ↔ fetchFailed outcome := by
  cases outcome with
  | clientError =>
    simp only [download_and_process_file]
    rw [status_after_update store task_id _ _ r hr]
    simp [fetchFailed]
  | success st body =>
    by_cases hst : st = 200
    · subst hst
      cases hgz : gunzip body with
      | formatError =>
        have hm : download_and_process_file gunzip (.success 200 body) task_id store =
            update_file_status store task_id "Failed to decompress" := by
          simp [download_and_process_file, hgz]
        rw [hm, status_after_update store task_id _ _ r hr]
        simp [fetchFailed]
      | otherError =>
        have hm : download_and_process_file gunzip (.success 200 body) task_id store =
            update_file_status store task_id "Failed due to an unexpected error" := by
          simp [download_and_process_file, hgz]
        rw [hm, status_after_update store task_id _ _ r hr]
        simp [fetchFailed]
      | ok text =>
        cases hx : extract_accession_numbers text with
        | none =>
          have hm : download_and_process_file gunzip (.success 200 body) task_id store =
              update_file_status store task_id "Failed due to an unexpected error" := by
            simp [download_and_process_file, hgz, hx]
          rw [hm, status_after_update store task_id _ _ r hr]
          simp [fetchFailed]
        | some l =>
          have hm : download_and_process_file gunzip (.success 200 body) task_id store =
              update_file_status store task_id "Completed" (some l) := by
            simp [download_and_process_file, hgz, hx]
          rw [hm, status_after_update store task_id _ _ r hr]
          simp [fetchFailed]
    · have hm : download_and_process_file gunzip (.success st body) task_id store =
          update_file_status store task_id "Failed to download" := by
        simp [download_and_process_file, hst]
      rw [hm, status_after_update store task_id _ _ r hr]
      simp [fetchFailed, hst]

/-- Witness for C7 on a concrete failing fetch. -/
theorem C7_iff_witness :
    findTask downloadingStore 3 = some downloadingRecord ∧
    (((findTask (download_and_process_file gzOkA1 .clientError 3 downloadingStore) 3).map
      File.status = some "Failed to download") ↔ fetchFailed .clientError) :=
  ⟨by decide,
    C7_failed_download_iff gzOkA1 .clientError downloadingStore 3 downloadingRecord
      (by decide)⟩

/-- The consistency invariant of C8: every stored record's `result_count`
equals the length of its `accession_list`. -/
def storeCountInv (store : List File) : Prop :=
  ∀ r ∈ store, r.result_count = r.accession_list.length

/-- C8: `result_count` and `accession_list` are kept mutually consistent:
`update_file_status` writes either neither field or both together with
`result_count = len(accession_list)`, task creation initialises them to
`0` and `[]`, and therefore the invariant `result_count =
length(accession_list)` is preserved by every store write — in particular
it holds for every task that reaches `Completed`. -/
theorem C8_count_consistency (store : List File) (task_id : Nat) (status : String)
    (optL : Option (List String)) (head : HeadOutcome) (new_uuid : Nat) (url : String)
    (h : storeCountInv store) :
    storeCountInv (update_file_status store task_id status optL) ∧
    (∀ out, start_download head task_id new_uuid url store = .ok out → storeCountInv out.1) ∧
    (∀ l r, findTask store task_id = some r →
      findTask (update_file_status store task_id status (some l)) task_id =
        some { r with status := status, accession_list := l, result_count := l.length }) := by
  refine ⟨?_, ?_, ?_⟩
  · intro x hx
    rcases mem_updateFirst store task_id _ x hx with hmem | ⟨y, hy, hxy⟩
    · exact h x hmem
    · subst hxy
      cases optL with
      | none => exact h y hy
      | some l => rfl
  · intro out hout
    cases head with
    | clientError => simp [start_download] at hout
    | success st =>
      by_cases hst : st = 200
      · subst hst
        simp only [start_download, ne_eq, not_true_eq_false, if_false, Except.ok.injEq]
          at hout
        intro x hx
        rw [← hout] at hx
        rcases List.mem_append.mp hx with h1 | h2
        · exact h x h1
        · rw [List.mem_singleton.mp h2]
          rfl
      · simp [start_download, hst] at hout
  · intro l r hr
    rw [update_file_status, findTask_updateFirst _ _ _ (applyStatus_task_id _ _), hr]
    rfl

/-- Witness for C8 on a concrete store and write. -/
theorem C8_count_witness :
    storeCountInv downloadingStore ∧
    storeCountInv (update_file_status downloadingStore 3 "Completed" (some ["X"])) :=
  ⟨by simp [storeCountInv, downloadingStore, downloadingRecord],
    (C8_count_consistency downloadingStore 3 "Completed" (some ["X"]) (.success 200) 1 "u"
      (by simp [storeCountInv, downloadingStore, downloadingRecord])).1⟩

/-- A store that already holds a task with `download_task_id = 5`. -/
def dupStore : List File :=
  [{ uuid := 0, download_task_id := 5, url := "u", status := "Downloading",
     result_count := 0, accession_list := [] }]

/-- The record `start_download` would insert for task id 5 a second time. -/
def dupInsertedRecord : File :=
  { uuid := 1, download_task_id := 5, url := "u2", status := "Downloading",
    result_count := 0, accession_list := [] }

/-- C9 counterexample: with a record for task id 5 already stored,
`start_download` drawing the same id 5 raises no `DuplicateIdError` and
inserts anyway: afterwards two records share `download_task_id = 5`. -/
theorem C9_counterexample :
    start_download (.success 200) 5 1 "u2" dupStore =
      .ok (dupStore ++ [dupInsertedRecord], 5, "Downloading") ∧
    ((dupStore ++ [dupInsertedRecord]).filter
      (fun r => r.download_task_id == 5)).length = 2 := by
  refine ⟨rfl, by decide⟩

/-- C9 as amended: on a successful HEAD probe, `start_download`
unconditionally appends a fresh record with the drawn task id, status
`Downloading` and the column defaults — it never consults the store, so
an id collision silently produces duplicate `download_task_id`s instead
of a `DuplicateIdError`. -/
theorem C9_insert_unconditional (store : List File) (task_id new_uuid : Nat) (url : String) :
    start_download (.success 200) task_id new_uuid url store =
      .ok (store ++
        [{ uuid := new_uuid
           download_task_id := task_id
           url := url
           status := "Downloading"
           result_count := 0
           accession_list := [] }],
        task_id, "Downloading") := by
  simp [start_download]

end FileDownloader
